import Mathlib

namespace WhatsAppBot

/-! Shallow embedding of the whatsapp-ai-bot repository.

Model of src/modules/contacts.js: phone normalization, contact maps, and
the periodic refresh. JS strings are embedded as Lean strings; where a
proof walks the characters we work on the underlying character list. -/

/-- Character-list form of the regex replace in formatPhoneNumber
(src/modules/contacts.js line 62): remove every non-digit character. -/
def cleanDigits (l : List Char) : List Char := l.filter Char.isDigit

/-- Core of formatPhoneNumber (src/modules/contacts.js lines 60-73) on the
character list: strip non-digits; if 8 digits remain, prefix the default
country code 65; if 10 digits remain and the first is a zero, replace that
zero by 65; otherwise return the stripped digits unchanged. -/
def formatPhoneList (l : List Char) : List Char :=
  let cleaned := cleanDigits l
  if cleaned.length = 8 then '6' :: '5' :: cleaned
  else if cleaned.length = 10 ∧ cleaned.head? = some '0' then '6' :: '5' :: cleaned.tail
  else cleaned

/-- formatPhoneNumber from src/modules/contacts.js. -/
def formatPhoneNumber (phone : String) : String :=
  String.mk (formatPhoneList phone.data)

/-- DATA_REFRESH_INTERVAL from src/modules/contacts.js line 7: thirty
minutes in milliseconds. -/
def DATA_REFRESH_INTERVAL : Nat := 30 * 60 * 1000

/-- One row of the spreadsheet-backed contact feeds. Only the phone field is
inspected by the refresh code; name stands in for the remaining profile
columns so distinct contacts stay distinguishable. -/
structure Contact where
  phone : Option String
  name : String
deriving DecidableEq, Repr

/-- JS Map.set semantics: replace the value of an existing key in place,
otherwise append the binding at the end. -/
def mapSet (m : List (String × Contact)) (k : String) (v : Contact) :
    List (String × Contact) :=
  if m.any (fun kv => kv.1 == k) then m.map (fun kv => if kv.1 == k then (k, v) else kv)
  else m ++ [(k, v)]

/-- The clear-then-repopulate loop of refreshContactData (contacts.js lines
22-31 and 39-48): starting from an empty map, every row with a truthy phone
is indexed under both the normalized number and its transport-qualified
form. -/
def populate (entries : List Contact) : List (String × Contact) :=
  entries.foldl
    (fun m c =>
      match c.phone with
      | some ph =>
          if ph = "" then m
          else
            let phoneNumber := formatPhoneNumber ph
            mapSet (mapSet m phoneNumber c) (phoneNumber ++ "@c.us") c
      | none => m)
    []

/-- Module-level mutable state of src/modules/contacts.js: the two contact
maps and the last refresh timestamp (epoch milliseconds). -/
structure ContactState where
  clientContacts : List (String × Contact)
  employeeContacts : List (String × Contact)
  lastDataRefresh : Nat
deriving DecidableEq, Repr

/-- Outcome of one axios.get in refreshContactData: the request throws, or it
returns a body whose expected array is present (some) or malformed (none). -/
inductive FetchResult where
  | throwErr
  | ok (data : Option (List Contact))
deriving DecidableEq, Repr

/-- refreshContactData from src/modules/contacts.js lines 10-57. Both fetches
run inside one try/catch: a throwing client fetch aborts the whole body, a
throwing employee fetch aborts after the client map was rebuilt, and only a
fully successful pass updates lastDataRefresh. -/
def refreshContactData (now : Nat) (st : ContactState)
    (clientFetch employeeFetch : FetchResult) : ContactState :=
  if now - st.lastDataRefresh < DATA_REFRESH_INTERVAL then st
  else
    match clientFetch with
    | .throwErr => st
    | .ok clientData =>
        let st1 :=
          match clientData with
          | some clients => { st with clientContacts := populate clients }
          | none => st
        match employeeFetch with
        | .throwErr => st1
        | .ok employeeData =>
            let st2 :=
              match employeeData with
              | some employees => { st1 with employeeContacts := populate employees }
              | none => st1
            { st2 with lastDataRefresh := now }

/-- One row of the whatsapp_messages table (src/sql/setup.sql lines 10-24).
TIMESTAMPTZ values are modelled as epoch milliseconds. -/
structure MessageRecord where
  message_id : String
  chat_id : String
  chat_type : String
  chat_name : String
  sender_id : String
  sender_name : String
  sender_role : String
  content : String
  reply_to : Option String
  is_from_bot : Bool
  timestamp : Nat
deriving DecidableEq, Repr

/-- INSERT into whatsapp_messages under the UNIQUE NOT NULL constraint on
message_id declared in src/sql/setup.sql line 12: a duplicate id yields a
constraint-violation error (the supabase client surfaces it as an error
value, not an exception) and leaves the table untouched; otherwise the row
is appended. -/
def dbInsert (db : List MessageRecord) (r : MessageRecord) :
    Except String (List MessageRecord) :=
  if db.any (fun x => x.message_id == r.message_id) then
    Except.error "duplicate key value violates unique constraint"
  else Except.ok (db ++ [r])

/-- The camelCase messageData argument of storeMessage in
src/modules/messageHandler.js. -/
structure MessageData where
  messageId : String
  chatId : String
  chatType : String
  chatName : String
  senderId : String
  senderName : String
  senderRole : String
  content : String
  replyTo : Option String
  isFromBot : Bool
  timestamp : Nat
deriving DecidableEq, Repr

namespace MessageHandler

/-- Field mapping of the insert call in storeMessage
(src/modules/messageHandler.js lines 7-19). -/
def toRecord (m : MessageData) : MessageRecord :=
  { message_id := m.messageId
    chat_id := m.chatId
    chat_type := m.chatType
    chat_name := m.chatName
    sender_id := m.senderId
    sender_name := m.senderName
    sender_role := m.senderRole
    content := m.content
    reply_to := m.replyTo
    is_from_bot := m.isFromBot
    timestamp := m.timestamp }

/-- storeMessage from src/modules/messageHandler.js lines 5-30: attempt the
insert; on a backend error log and return false, leaving the store as it
was; on success return true. Exceptions are caught inside, so the function
is total. -/
def storeMessage (db : List MessageRecord) (m : MessageData) :
    List MessageRecord × Bool :=
  match dbInsert db (toRecord m) with
  | .error _ => (db, false)
  | .ok db2 => (db2, true)

end MessageHandler

/-- The optional quoted-reply block read by the forwarder via
payload.replyInfo?.text. -/
structure ReplyInfo where
  text : Option String
deriving DecidableEq, Repr

/-- The webhook payload assembled in handleIncomingMessage
(src/modules/messageHandler.js lines 143-157), plus the replyInfo field the
forwarder inspects. -/
structure Payload where
  messageId : String
  chatId : String
  chatType : String
  chatName : String
  senderId : String
  senderName : String
  senderRole : String
  phoneNumber : String
  text : Option String
  hasReply : Bool
  replyTo : Option String
  timestamp : Nat
  contactData : Option Contact
  replyInfo : Option ReplyInfo
deriving DecidableEq, Repr

/-- The marker appended after a slice in the truncation code. -/
def truncMark : String := "... [truncated]"

/-- slice(0, cap) followed by the truncation marker. -/
def truncText (cap : Nat) (t : String) : String :=
  String.mk (t.data.take cap ++ truncMark.data)

/-- First truncation statement of sendToN8nWebhook (messageHandler.js lines
42-44): cap payload.text at 1000 characters. -/
def truncateTextStep (p : Payload) : Payload :=
  match p.text with
  | some t => if 1000 < t.length then { p with text := some (truncText 1000 t) } else p
  | none => p

/-- Second truncation statement (messageHandler.js lines 45-47): cap
payload.replyInfo.text at 500 characters. -/
def truncateReplyStep (p : Payload) : Payload :=
  match p.replyInfo with
  | some ri =>
      match ri.text with
      | some t =>
          if 500 < t.length then
            { p with replyInfo := some { ri with text := some (truncText 500 t) } }
          else p
      | none => p
  | none => p

/-- The in-place pre-send normalization of sendToN8nWebhook: both truncation
statements in source order. -/
def truncatePayload (p : Payload) : Payload :=
  truncateReplyStep (truncateTextStep p)

/-- Observable steps of one sendToN8nWebhook activation, including the
deferred re-executions it schedules. -/
inductive WebhookEvent where
  | skipNoUrl
  | skipTooLarge (size : Nat)
  | post (attempt : Nat)
  | postOk (attempt : Nat)
  | postFail (attempt : Nat)
  | scheduleRetry (attempt : Nat) (backoffMs : Nat)
  | giveUp
deriving DecidableEq, Repr

/-- sendToN8nWebhook from src/modules/messageHandler.js lines 33-69. The
serialized byte size is abstracted as a function byteLength of the payload,
and transport failure of the k-th attempt as fails k. The returned payload
is the caller's object after the in-place truncation; the event list flattens
the activation together with the deferred retries it schedules. -/
def sendToN8nWebhook (urlSet : Bool) (byteLength : Payload → Nat) (fails : Nat → Bool)
    (payload : Payload) (attempt : Nat) : Payload × List WebhookEvent :=
  if !urlSet then (payload, [.skipNoUrl])
  else
    let p := truncatePayload payload
    let payloadSize := byteLength p
    if 90000 < payloadSize then (p, [.skipTooLarge payloadSize])
    else if fails attempt = false then (p, [.post attempt, .postOk attempt])
    else if h : attempt < 4 then
      let backoff := min (2 ^ attempt * 1000) 15000
      let rest := sendToN8nWebhook urlSet byteLength fails p (attempt + 1)
      (rest.1, .post attempt :: .postFail attempt ::
        .scheduleRetry (attempt + 1) backoff :: rest.2)
    else (p, [.post attempt, .postFail attempt, .giveUp])
termination_by 5 - attempt
decreasing_by omega

/-- An inbound transport message as the handlers in src/index.js read it:
fromMe, from, author, body, timestamp (seconds), the serialized id, and the
quoted-message id if any. The JS field name from is a Lean keyword, hence
from_. -/
structure WAMessage where
  fromMe : Bool
  from_ : String
  author : Option String
  body : String
  timestamp : Nat
  msgId : String
  quotedMsgId : Option String
deriving DecidableEq, Repr

/-- The chat object returned by msg.getChat(). -/
structure Chat where
  isGroup : Bool
  name : Option String
  chatId : String
deriving DecidableEq, Repr

namespace IndexJs

/-- The messageData record assembled by storeMessage in src/index.js lines
73-86. Contact-lookup enrichment (senderData.name or pushname) is collapsed
into the senderName argument. -/
def buildRecord (msg : WAMessage) (chat : Chat) (senderRole senderName : String)
    (isFromBot : Bool) : MessageRecord :=
  { message_id := msg.msgId
    chat_id := chat.chatId
    chat_type := if chat.isGroup then "group" else "dm"
    chat_name := chat.name.getD (if chat.isGroup then "Unknown Group" else "Private Chat")
    sender_id := if isFromBot then "bot" else msg.from_
    sender_name := if isFromBot then "Bot" else senderName
    sender_role := if isFromBot then "bot" else senderRole
    content := msg.body
    reply_to := msg.quotedMsgId
    is_from_bot := isFromBot
    timestamp := msg.timestamp * 1000 }

/-- storeMessage from src/index.js lines 51-105: insert the record; a backend
error (in particular a duplicate id) is logged and null is returned with the
store untouched, otherwise the stored row is returned. -/
def storeMessage (db : List MessageRecord) (msg : WAMessage) (chat : Chat)
    (senderRole senderName : String) (isFromBot : Bool) :
    List MessageRecord × Option MessageRecord :=
  let messageData := buildRecord msg chat senderRole senderName isFromBot
  match dbInsert db messageData with
  | .error _ => (db, none)
  | .ok db2 => (db2, some messageData)

/-- The human-already-responded test of src/index.js lines 313-317: some
fetched message is strictly newer than the trigger, not sent by the bot
itself, and from a different sender. -/
def hasHumanResponse (msg : WAMessage) (fetched : List WAMessage) : Bool :=
  fetched.any fun newMsg =>
    decide (msg.timestamp < newMsg.timestamp) && !newMsg.fromMe &&
      newMsg.from_ != msg.from_

/-- The human-already-responded test of the earlier pipeline revision
(src/unnamed/part_001 lines 992-996), which compares the author fields --
the field that actually carries the sender of a group message, where from
carries the group chat id. -/
def hasHumanResponseAuthor (msg : WAMessage) (fetched : List WAMessage) : Bool :=
  fetched.any fun newMsg =>
    decide (msg.timestamp < newMsg.timestamp) && !newMsg.fromMe &&
      newMsg.author != msg.author

/-- Observable steps of the on-message pipeline in src/index.js lines
274-330. -/
inductive PipelineEvent where
  | storeAttempt (record : MessageRecord)
  | triggerWebhook (messageId : String)
  | dmDisabledStop
  | waitDelay (ms : Nat)
  | fetchMessages (limit : Nat)
  | humanRespondedStop
  | handleIncoming (messageId : String)
deriving DecidableEq, Repr

/-- The message event handler of src/index.js lines 274-330: skip own
messages; store; trigger the n8n webhook; stop if a direct message and DM
responses are disabled; for group chats with a positive configured delay,
wait, re-fetch the 10 most recent chat messages, and stop if a human already
responded; otherwise hand off to handleIncomingMessage. The sender role and
name resolved from the contact directory arrive as arguments, and fetched is
what chat.fetchMessages returns after the wait. -/
def onMessage (enableDmResponses : Bool) (groupResponseDelay : Nat)
    (db : List MessageRecord) (msg : WAMessage) (chat : Chat)
    (senderRole senderName : String) (fetched : List WAMessage) :
    List MessageRecord × List PipelineEvent :=
  if msg.fromMe then (db, [])
  else
    let stored := storeMessage db msg chat senderRole senderName false
    let evs0 : List PipelineEvent :=
      [.storeAttempt (buildRecord msg chat senderRole senderName false),
       .triggerWebhook msg.msgId]
    if !chat.isGroup && !enableDmResponses then (stored.1, evs0 ++ [.dmDisabledStop])
    else if chat.isGroup && decide (0 < groupResponseDelay) then
      let evs1 := evs0 ++ [.waitDelay groupResponseDelay, .fetchMessages 10]
      if hasHumanResponse msg fetched then (stored.1, evs1 ++ [.humanRespondedStop])
      else (stored.1, evs1 ++ [.handleIncoming msg.msgId])
    else (stored.1, evs0 ++ [.handleIncoming msg.msgId])

/-- Actions the auth_failure handler can take. -/
inductive SupervisorAction where
  | eraseSession
  | clearClient
  | scheduleRestart (delayMs : Nat)
  | logCleanupError
  | exitProcess (code : Nat)
deriving DecidableEq, Repr

/-- SupabaseStore.delete (src/modules/storage.js lines 51-58): delete every
row whose session_key equals the instance's session id. -/
def sessionDelete (sessions : List (String × String)) (sessionId : String) :
    List (String × String) :=
  sessions.filter (fun kv => kv.1 != sessionId)

/-- The auth_failure handler of src/index.js lines 259-272: erase the stored
session, clear the client handle, and schedule one restart after a fixed
10000 ms delay; if the erase rejects, log and exit the process with code 1.
The session table travels alongside the emitted actions. -/
def onAuthFailure (sessions : List (String × String)) (sessionId : String)
    (eraseThrows : Bool) : List (String × String) × List SupervisorAction :=
  if eraseThrows then (sessions, [.eraseSession, .logCleanupError, .exitProcess 1])
  else (sessionDelete sessions sessionId,
        [.eraseSession, .clearClient, .scheduleRestart 10000])

end IndexJs

/-- The reply-side text of a payload, read through both optional layers the
way payload.replyInfo?.text does. -/
def replyText (p : Payload) : Option String :=
  p.replyInfo.bind (fun ri => ri.text)

/-- Sample message data for witness instantiations: two submissions sharing
one message_id. -/
def mData1 : MessageData :=
  ⟨"wamid-1", "chat-1", "dm", "Direct Message", "alice", "Alice", "client",
    "hello", none, false, 1000⟩

/-- Second submission with the same message_id but different content. -/
def mData2 : MessageData :=
  ⟨"wamid-1", "chat-1", "dm", "Direct Message", "bob", "Bob", "employee",
    "redelivered copy", none, false, 2000⟩

/-- A sample inbound direct message. -/
def dmMsg : WAMessage :=
  ⟨false, "6581234567@c.us", none, "hi there", 1700000000, "wamid-dm-1", none⟩

/-- The chat of the sample direct message. -/
def dmChat : Chat := ⟨false, none, "6581234567@c.us"⟩

/-- A sample inbound group message. -/
def groupMsg : WAMessage :=
  ⟨false, "12345-67890@g.us", some "6581234567@c.us", "valuation update",
    1700000000, "wamid-g-1", none⟩

/-- The chat of the sample group message. -/
def groupChat : Chat := ⟨true, some "Deals", "12345-67890@g.us"⟩

/-- A strictly newer reply by a different human sender, as it is fetched
from the same group chat: its from field carries the group chat id and its
author field carries the sender (the repository reads group messages that
way in src/modules/messageHandler.js lines 75 and 78). -/
def groupReplyMsg : WAMessage :=
  ⟨false, "12345-67890@g.us", some "6598765432@c.us", "on it", 1700000001,
    "wamid-g-2", none⟩

/-- A sample employee row for the contact-refresh witnesses. -/
def cEmp : Contact := ⟨some "81234567", "Emp"⟩

/-- A sample webhook payload with short texts. -/
def samplePayload : Payload :=
  ⟨"wamid-1", "chat-1", "dm", "Direct Message", "6581234567@c.us", "Alice",
    "client", "6581234567", some "hello", false, none, 1700000000, none,
    some ⟨some "quoted"⟩⟩

lemma cleanDigits_all_digits (l : List Char) :
    ∀ c ∈ cleanDigits l, c.isDigit = true := by
  intro c hc
  exact (List.mem_filter.mp hc).2

lemma cleanDigits_of_all_digits (l : List Char) (h : ∀ c ∈ l, c.isDigit = true) :
    cleanDigits l = l :=
  List.filter_eq_self.mpr h

lemma cleanDigits_cons_65 (c : List Char) (h : ∀ x ∈ c, x.isDigit = true) :
    cleanDigits ('6' :: '5' :: c) = '6' :: '5' :: c := by
  refine cleanDigits_of_all_digits _ ?_
  intro x hx
  rcases List.mem_cons.mp hx with rfl | hx
  · decide
  rcases List.mem_cons.mp hx with rfl | hx
  · decide
  exact h x hx

lemma all_digits_tail (c : List Char) (h : ∀ x ∈ c, x.isDigit = true) :
    ∀ x ∈ c.tail, x.isDigit = true := fun x hx => h x (List.mem_of_mem_tail hx)

theorem formatPhoneList_idem (l : List Char) :
    formatPhoneList (formatPhoneList l) = formatPhoneList l := by
  have hdig : ∀ x ∈ cleanDigits l, x.isDigit = true := cleanDigits_all_digits l
  by_cases h8 : (cleanDigits l).length = 8
  · have h1 : formatPhoneList l = '6' :: '5' :: cleanDigits l := by
      simp [formatPhoneList, h8]
    rw [h1]
    have hclean : cleanDigits ('6' :: '5' :: cleanDigits l) = '6' :: '5' :: cleanDigits l :=
      cleanDigits_cons_65 _ hdig
    simp [formatPhoneList, hclean, h8, h1]
  · by_cases h10 : (cleanDigits l).length = 10 ∧ (cleanDigits l).head? = some '0'
    · have h1 : formatPhoneList l = '6' :: '5' :: (cleanDigits l).tail := by
        simp [formatPhoneList, h8, h10]
      rw [h1]
      have hclean : cleanDigits ('6' :: '5' :: (cleanDigits l).tail)
          = '6' :: '5' :: (cleanDigits l).tail :=
        cleanDigits_cons_65 _ (all_digits_tail _ hdig)
      have hlen : ('6' :: '5' :: (cleanDigits l).tail).length = 11 := by
        simp [List.length_tail, h10.1]
      simp [formatPhoneList, hclean, hlen]
    · have h1 : formatPhoneList l = cleanDigits l := by
        simp [formatPhoneList, h8, h10]
      rw [h1]
      have hclean : cleanDigits (cleanDigits l) = cleanDigits l :=
        cleanDigits_of_all_digits _ hdig
      simp [formatPhoneList, hclean, h8, h10]

/-- Claim C5 (amended): formatPhoneNumber is idempotent on every input, and
"81234567" normalizes to "6581234567"; but the 9-digit input "081234567" is
returned unchanged (only 8-digit inputs gain the country code and only
10-digit inputs with a leading zero have the zero replaced), so "081234567"
does not normalize to the canonical "6581234567". -/
theorem formatPhoneNumber_idem_and_examples :
    (∀ s : String, formatPhoneNumber (formatPhoneNumber s) = formatPhoneNumber s) ∧
    formatPhoneNumber "81234567" = "6581234567" ∧
    formatPhoneNumber "081234567" = "081234567" ∧
    formatPhoneNumber "6581234567" = "6581234567" := by
  refine ⟨?_, by decide, by decide, by decide⟩
  intro s
  exact congrArg String.mk (formatPhoneList_idem s.data)

/-- Claim C5, the claim as frozen is false: the code normalizes "081234567"
(9 digits) to itself, not to the canonical value "6581234567" that
"81234567" normalizes to. -/
theorem formatPhoneNumber_nine_digit_zero_counterexample :
    formatPhoneNumber "081234567" ≠ formatPhoneNumber "6581234567" ∧
    formatPhoneNumber "81234567" = "6581234567" ∧
    formatPhoneNumber "081234567" = "081234567" := by
  refine ⟨by decide, by decide, by decide⟩

/-- Claim C10: formatPhoneNumber always returns a string of decimal digits
only, and the result is either the digit-stripped input, or the stripped
input with its leading zero replaced by 65, or 65 prepended to the stripped
input. -/
theorem formatPhoneNumber_digits_only :
    ∀ s : String,
      ((formatPhoneNumber s).data.all Char.isDigit = true) ∧
      ((formatPhoneNumber s).data = cleanDigits s.data ∨
       ((cleanDigits s.data).head? = some '0' ∧
         (formatPhoneNumber s).data = '6' :: '5' :: (cleanDigits s.data).tail) ∨
       (formatPhoneNumber s).data = '6' :: '5' :: cleanDigits s.data) := by
  intro s
  have hdig : ∀ x ∈ cleanDigits s.data, x.isDigit = true := cleanDigits_all_digits s.data
  have hform : (formatPhoneNumber s).data = formatPhoneList s.data := rfl
  constructor
  · rw [List.all_eq_true, hform]
    by_cases h8 : (cleanDigits s.data).length = 8
    · have h1 : formatPhoneList s.data = '6' :: '5' :: cleanDigits s.data := by
        simp [formatPhoneList, h8]
      rw [h1]
      intro x hx
      rcases List.mem_cons.mp hx with rfl | hx
      · decide
      rcases List.mem_cons.mp hx with rfl | hx
      · decide
      exact hdig x hx
    · by_cases h10 : (cleanDigits s.data).length = 10 ∧ (cleanDigits s.data).head? = some '0'
      · have h1 : formatPhoneList s.data = '6' :: '5' :: (cleanDigits s.data).tail := by
          simp [formatPhoneList, h8, h10]
        rw [h1]
        intro x hx
        rcases List.mem_cons.mp hx with rfl | hx
        · decide
        rcases List.mem_cons.mp hx with rfl | hx
        · decide
        exact all_digits_tail _ hdig x hx
      · have h1 : formatPhoneList s.data = cleanDigits s.data := by
          simp [formatPhoneList, h8, h10]
        rw [h1]
        exact hdig
  · rw [hform]
    unfold formatPhoneList
    by_cases h8 : (cleanDigits s.data).length = 8
    · right; right; simp [h8]
    · by_cases h10 : (cleanDigits s.data).length = 10 ∧ (cleanDigits s.data).head? = some '0'
      · right; left; refine ⟨h10.2, ?_⟩; simp [h8, h10]
      · left; simp [h8, h10]

/-- Claim C1: storing two messages with the same message_id keeps exactly one
record in the store: the first insert succeeds, the second is rejected as a
duplicate (logged, returns false) without overwriting the first record, and
storeMessage is a total function, so the rejection never aborts the
pipeline. -/
theorem MessageHandler.storeMessage_duplicate_idempotent
    (db : List MessageRecord) (m1 m2 : MessageData)
    (hid : m1.messageId = m2.messageId)
    (hfresh : ∀ r ∈ db, r.message_id ≠ m1.messageId) :
    (MessageHandler.storeMessage db m1).2 = true ∧
    (MessageHandler.storeMessage (MessageHandler.storeMessage db m1).1 m2).2 = false ∧
    (MessageHandler.storeMessage (MessageHandler.storeMessage db m1).1 m2).1
        = db ++ [MessageHandler.toRecord m1] ∧
    ((MessageHandler.storeMessage (MessageHandler.storeMessage db m1).1 m2).1.filter
        (fun r => r.message_id == m1.messageId)) = [MessageHandler.toRecord m1] := by
  have hany1 : db.any
      (fun x => x.message_id == (MessageHandler.toRecord m1).message_id) = false := by
    rw [List.any_eq_false]
    intro x hx
    simp only [MessageHandler.toRecord, beq_iff_eq]
    exact hfresh x hx
  have h1 : MessageHandler.storeMessage db m1 = (db ++ [MessageHandler.toRecord m1], true) := by
    simp [MessageHandler.storeMessage, dbInsert, hany1]
  have hany2 : (db ++ [MessageHandler.toRecord m1]).any
      (fun x => x.message_id == (MessageHandler.toRecord m2).message_id) = true := by
    rw [List.any_eq_true]
    refine ⟨MessageHandler.toRecord m1, by simp, ?_⟩
    simp [MessageHandler.toRecord, hid]
  have h2 : MessageHandler.storeMessage (db ++ [MessageHandler.toRecord m1]) m2
      = (db ++ [MessageHandler.toRecord m1], false) := by
    simp [MessageHandler.storeMessage, dbInsert, hany2]
  have hfilter : (db ++ [MessageHandler.toRecord m1]).filter
      (fun r => r.message_id == m1.messageId) = [MessageHandler.toRecord m1] := by
    rw [List.filter_append]
    have hnil : db.filter (fun r => r.message_id == m1.messageId) = [] := by
      rw [List.filter_eq_nil_iff]
      intro a ha
      simp only [beq_iff_eq]
      exact hfresh a ha
    rw [hnil]
    simp [MessageHandler.toRecord]
  exact ⟨by rw [h1], by rw [h1, h2], by rw [h1, h2], by rw [h1, h2]; exact hfilter⟩

/-- Claim C1 witness: both hypotheses hold concretely for an empty store and
two submissions sharing the id wamid-1. -/
theorem MessageHandler.storeMessage_duplicate_idempotent_witness :
    (MessageHandler.storeMessage [] mData1).2 = true ∧
    (MessageHandler.storeMessage (MessageHandler.storeMessage [] mData1).1 mData2).2 = false ∧
    (MessageHandler.storeMessage (MessageHandler.storeMessage [] mData1).1 mData2).1
        = [] ++ [MessageHandler.toRecord mData1] ∧
    ((MessageHandler.storeMessage (MessageHandler.storeMessage [] mData1).1 mData2).1.filter
        (fun r => r.message_id == mData1.messageId)) = [MessageHandler.toRecord mData1] :=
  MessageHandler.storeMessage_duplicate_idempotent [] mData1 mData2 rfl
    (by intro r hr; exact absurd hr (List.not_mem_nil r))

/-- Claim C4 is false on the code: refreshContactData wraps both fetches in a
single try/catch, so a throwing client fetch aborts before the employee
fetch ever runs. Concretely, with a due refresh, a throwing client fetch and
well-formed employee data, the employee map stays empty instead of being
repopulated from the fetched rows. -/
theorem refreshContactData_client_failure_counterexample :
    (refreshContactData (30 * 60 * 1000) ⟨[], [], 0⟩ .throwErr
        (.ok (some [cEmp]))).employeeContacts ≠ populate [cEmp] ∧
    (refreshContactData (30 * 60 * 1000) ⟨[], [], 0⟩ .throwErr
        (.ok (some [cEmp]))).employeeContacts = [] := by
  constructor
  · decide
  · decide

/-- Claim C4 (amended): an employee-side fetch failure does not clear the
client map nor prevent its refresh (the client side is fetched first and has
already been repopulated), and a failed side's existing map contents are
never cleared; but a client-side fetch failure aborts the whole refresh
body, so the employee map is neither cleared nor refreshed. -/
theorem refreshContactData_partial_failure
    (now : Nat) (st : ContactState) (clients : List Contact) (ef : FetchResult)
    (hdue : DATA_REFRESH_INTERVAL ≤ now - st.lastDataRefresh) :
    (refreshContactData now st (.ok (some clients)) .throwErr).clientContacts
        = populate clients ∧
    (refreshContactData now st (.ok (some clients)) .throwErr).employeeContacts
        = st.employeeContacts ∧
    refreshContactData now st .throwErr ef = st := by
  have hguard : ¬ (now - st.lastDataRefresh < DATA_REFRESH_INTERVAL) := not_lt.mpr hdue
  refine ⟨?_, ?_, ?_⟩ <;> simp [refreshContactData, hguard]

/-- Claim C4 witness: the amended statement instantiated at a due refresh
over the empty state. -/
theorem refreshContactData_partial_failure_witness :
    (refreshContactData (30 * 60 * 1000) ⟨[], [], 0⟩ (.ok (some [cEmp]))
        .throwErr).clientContacts = populate [cEmp] ∧
    (refreshContactData (30 * 60 * 1000) ⟨[], [], 0⟩ (.ok (some [cEmp]))
        .throwErr).employeeContacts = (⟨[], [], 0⟩ : ContactState).employeeContacts ∧
    refreshContactData (30 * 60 * 1000) ⟨[], [], 0⟩ .throwErr (.ok (some [cEmp]))
        = ⟨[], [], 0⟩ :=
  refreshContactData_partial_failure (30 * 60 * 1000) ⟨[], [], 0⟩ [cEmp]
    (.ok (some [cEmp])) (by decide)

/-- Claim C8: on an authentication failure the supervisor erases the stored
session (no record under the session key survives), clears the connection
handle, and schedules exactly one restart after the fixed 10000 ms delay;
when the erase itself throws, it logs and exits the process with code 1, and
no restart is scheduled. -/
theorem IndexJs.onAuthFailure_policy
    (sessions : List (String × String)) (sessionId : String) :
    ((IndexJs.onAuthFailure sessions sessionId false).1.all
        (fun kv => kv.1 != sessionId) = true) ∧
    ((IndexJs.onAuthFailure sessions sessionId false).2
        = [.eraseSession, .clearClient, .scheduleRestart 10000]) ∧
    (((IndexJs.onAuthFailure sessions sessionId false).2.countP
        (fun a => match a with | .scheduleRestart _ => true | _ => false)) = 1) ∧
    ((IndexJs.onAuthFailure sessions sessionId true).2
        = [.eraseSession, .logCleanupError, .exitProcess 1]) ∧
    (((IndexJs.onAuthFailure sessions sessionId true).2.countP
        (fun a => match a with | .scheduleRestart _ => true | _ => false)) = 0) := by
  refine ⟨?_, rfl, rfl, rfl, rfl⟩
  rw [List.all_eq_true]
  intro kv hkv
  have hmem : kv ∈ sessions.filter (fun kv => kv.1 != sessionId) := hkv
  exact (List.mem_filter.mp hmem).2

/-- Claim C2: an inbound direct message arriving while DM responses are
disabled is durably stored first (the insert runs before the gate, and with
a fresh id the record lands in the store) and forwarded to the webhook, and
the pipeline then stops: only the response handoff is skipped. -/
theorem IndexJs.onMessage_dm_disabled_stores_then_stops
    (delay : Nat) (db : List MessageRecord) (msg : WAMessage) (chat : Chat)
    (senderRole senderName : String) (fetched : List WAMessage)
    (hnotme : msg.fromMe = false) (hdm : chat.isGroup = false) :
    (IndexJs.onMessage false delay db msg chat senderRole senderName fetched).2
        = [.storeAttempt (IndexJs.buildRecord msg chat senderRole senderName false),
           .triggerWebhook msg.msgId, .dmDisabledStop] ∧
    (IndexJs.onMessage false delay db msg chat senderRole senderName fetched).1
        = (IndexJs.storeMessage db msg chat senderRole senderName false).1 ∧
    ((∀ r ∈ db, r.message_id ≠ msg.msgId) →
      (IndexJs.onMessage false delay db msg chat senderRole senderName fetched).1
        = db ++ [IndexJs.buildRecord msg chat senderRole senderName false]) ∧
    (∀ mid, IndexJs.PipelineEvent.handleIncoming mid
        ∉ (IndexJs.onMessage false delay db msg chat senderRole senderName fetched).2) := by
  have h : IndexJs.onMessage false delay db msg chat senderRole senderName fetched
      = ((IndexJs.storeMessage db msg chat senderRole senderName false).1,
         [.storeAttempt (IndexJs.buildRecord msg chat senderRole senderName false),
          .triggerWebhook msg.msgId, .dmDisabledStop]) := by
    unfold IndexJs.onMessage
    simp [hnotme, hdm]
  refine ⟨by rw [h], by rw [h], ?_, ?_⟩
  · intro hfresh
    have hrid : (IndexJs.buildRecord msg chat senderRole senderName false).message_id
        = msg.msgId := rfl
    have hany : db.any (fun x =>
        x.message_id == (IndexJs.buildRecord msg chat senderRole senderName false).message_id)
        = false := by
      rw [List.any_eq_false]
      intro x hx
      rw [hrid]
      simp only [beq_iff_eq]
      exact hfresh x hx
    have hstore : IndexJs.storeMessage db msg chat senderRole senderName false
        = (db ++ [IndexJs.buildRecord msg chat senderRole senderName false],
           some (IndexJs.buildRecord msg chat senderRole senderName false)) := by
      unfold IndexJs.storeMessage
      simp [dbInsert, hany]
    rw [h, hstore]
  · intro mid
    rw [h]
    simp

/-- Claim C2 witness: the sample direct message on an empty store with DM
responses disabled. -/
theorem IndexJs.onMessage_dm_disabled_witness :
    (IndexJs.onMessage false 10000 [] dmMsg dmChat "client" "Alice" []).2
        = [.storeAttempt (IndexJs.buildRecord dmMsg dmChat "client" "Alice" false),
           .triggerWebhook dmMsg.msgId, .dmDisabledStop] ∧
    (IndexJs.onMessage false 10000 [] dmMsg dmChat "client" "Alice" []).1
        = [] ++ [IndexJs.buildRecord dmMsg dmChat "client" "Alice" false] :=
  ⟨(IndexJs.onMessage_dm_disabled_stores_then_stops 10000 [] dmMsg dmChat "client"
      "Alice" [] rfl rfl).1,
   (IndexJs.onMessage_dm_disabled_stores_then_stops 10000 [] dmMsg dmChat "client"
      "Alice" [] rfl rfl).2.2.1
     (by intro r hr; exact absurd hr (List.not_mem_nil r))⟩

/-- Claim C3 states the intended behavior and the code has a bug: a message
fetched from a group chat carries the group chat id in its from field and
its sender in the author field (the repository itself classifies group
messages by the from suffix and reads the sender as author, messageHandler.js
lines 75 and 78), yet the shipped check of index.js line 316 compares from
fields. Every same-group reply therefore has from equal to the trigger's
from, the check never fires, and the pipeline hands off instead of
suppressing -- shown here at a concrete genuine different-human-sender
reply, which the author-comparing check of the earlier revision
(part_001 line 995) does detect. -/
theorem IndexJs.onMessage_group_reply_not_suppressed :
    (groupMsg.timestamp < groupReplyMsg.timestamp ∧ groupReplyMsg.fromMe = false ∧
     groupReplyMsg.author ≠ groupMsg.author ∧
     groupReplyMsg.from_ = groupMsg.from_ ∧ groupMsg.from_ = groupChat.chatId) ∧
    IndexJs.hasHumanResponseAuthor groupMsg [groupReplyMsg] = true ∧
    IndexJs.hasHumanResponse groupMsg [groupReplyMsg] = false ∧
    IndexJs.PipelineEvent.waitDelay 10000
        ∈ (IndexJs.onMessage true 10000 [] groupMsg groupChat "client" "Alice"
            [groupReplyMsg]).2 ∧
    IndexJs.PipelineEvent.fetchMessages 10
        ∈ (IndexJs.onMessage true 10000 [] groupMsg groupChat "client" "Alice"
            [groupReplyMsg]).2 ∧
    IndexJs.PipelineEvent.humanRespondedStop
        ∉ (IndexJs.onMessage true 10000 [] groupMsg groupChat "client" "Alice"
            [groupReplyMsg]).2 ∧
    IndexJs.PipelineEvent.handleIncoming groupMsg.msgId
        ∈ (IndexJs.onMessage true 10000 [] groupMsg groupChat "client" "Alice"
            [groupReplyMsg]).2 := by
  refine ⟨⟨by decide, rfl, by decide, rfl, rfl⟩, by decide, by decide, ?_, ?_, ?_, ?_⟩
  · decide
  · decide
  · decide
  · decide

lemma truncText_length (cap : Nat) (t : String) (h : cap ≤ t.length) :
    (truncText cap t).length = cap + truncMark.length := by
  show (t.data.take cap ++ truncMark.data).length = cap + truncMark.length
  rw [List.length_append, List.length_take]
  have ht : t.data.length = t.length := rfl
  have hm : truncMark.data.length = truncMark.length := rfl
  rw [ht, hm, Nat.min_eq_left h]

lemma truncText_fixed (cap : Nat) (t : String) (h : cap ≤ t.length) :
    truncText cap (truncText cap t) = truncText cap t := by
  apply congrArg String.mk
  show (t.data.take cap ++ truncMark.data).take cap ++ truncMark.data
      = t.data.take cap ++ truncMark.data
  have hlen : (t.data.take cap).length = cap := by
    rw [List.length_take]
    exact Nat.min_eq_left h
  rw [List.take_append_eq_append_take, List.take_take, Nat.min_self, hlen, Nat.sub_self,
    List.take_zero, List.append_nil]

lemma truncateTextStep_idem (p : Payload) :
    truncateTextStep (truncateTextStep p) = truncateTextStep p := by
  obtain ⟨mid, cid, cty, cna, sid, sna, sro, pho, text, hr, rto, ts, cd, ri⟩ := p
  cases text with
  | none => rfl
  | some t =>
      by_cases hlong : 1000 < t.length
      · have hlen : 1000 < (truncText 1000 t).length := by
          rw [truncText_length 1000 t (le_of_lt hlong)]
          have hm : truncMark.length = 15 := rfl
          omega
        simp [truncateTextStep, hlong, hlen, truncText_fixed 1000 t (le_of_lt hlong)]
      · simp [truncateTextStep, hlong]

lemma truncateReplyStep_idem (p : Payload) :
    truncateReplyStep (truncateReplyStep p) = truncateReplyStep p := by
  obtain ⟨mid, cid, cty, cna, sid, sna, sro, pho, text, hr, rto, ts, cd, ri⟩ := p
  cases ri with
  | none => rfl
  | some r =>
      obtain ⟨rtext⟩ := r
      cases rtext with
      | none => rfl
      | some u =>
          by_cases hlong : 500 < u.length
          · have hlen : 500 < (truncText 500 u).length := by
              rw [truncText_length 500 u (le_of_lt hlong)]
              have hm : truncMark.length = 15 := rfl
              omega
            simp [truncateReplyStep, hlong, hlen, truncText_fixed 500 u (le_of_lt hlong)]
          · simp [truncateReplyStep, hlong]

lemma trunc_steps_comm (p : Payload) :
    truncateTextStep (truncateReplyStep p) = truncateReplyStep (truncateTextStep p) := by
  obtain ⟨mid, cid, cty, cna, sid, sna, sro, pho, text, hr, rto, ts, cd, ri⟩ := p
  cases text with
  | none =>
      cases ri with
      | none => rfl
      | some r =>
          obtain ⟨rtext⟩ := r
          cases rtext with
          | none => rfl
          | some u =>
              by_cases hu : 500 < u.length <;>
                simp [truncateTextStep, truncateReplyStep, hu]
  | some t =>
      cases ri with
      | none =>
          by_cases ht : 1000 < t.length <;>
            simp [truncateTextStep, truncateReplyStep, ht]
      | some r =>
          obtain ⟨rtext⟩ := r
          cases rtext with
          | none =>
              by_cases ht : 1000 < t.length <;>
                simp [truncateTextStep, truncateReplyStep, ht]
          | some u =>
              by_cases ht : 1000 < t.length <;> by_cases hu : 500 < u.length <;>
                simp [truncateTextStep, truncateReplyStep, ht, hu]

lemma truncatePayload_idem (p : Payload) :
    truncatePayload (truncatePayload p) = truncatePayload p := by
  unfold truncatePayload
  rw [trunc_steps_comm (truncateTextStep p), truncateTextStep_idem p,
    truncateReplyStep_idem (truncateTextStep p)]

lemma sendToN8nWebhook_step_fail (byteLength : Payload → Nat) (fails : Nat → Bool)
    (p : Payload) (a : Nat)
    (hsize : byteLength (truncatePayload p) ≤ 90000) (hf : fails a = true) (ha : a < 4) :
    sendToN8nWebhook true byteLength fails p a =
      ((sendToN8nWebhook true byteLength fails (truncatePayload p) (a + 1)).1,
        WebhookEvent.post a :: WebhookEvent.postFail a ::
          WebhookEvent.scheduleRetry (a + 1) (min (2 ^ a * 1000) 15000) ::
          (sendToN8nWebhook true byteLength fails (truncatePayload p) (a + 1)).2) := by
  rw [sendToN8nWebhook]
  have h90 : ¬ (90000 < byteLength (truncatePayload p)) := not_lt.mpr hsize
  simp [h90, hf, ha]

lemma sendToN8nWebhook_step_giveup (byteLength : Payload → Nat) (fails : Nat → Bool)
    (p : Payload) (a : Nat)
    (hsize : byteLength (truncatePayload p) ≤ 90000) (hf : fails a = true)
    (ha : ¬ a < 4) :
    sendToN8nWebhook true byteLength fails p a =
      (truncatePayload p,
        [WebhookEvent.post a, WebhookEvent.postFail a, WebhookEvent.giveUp]) := by
  rw [sendToN8nWebhook]
  have h90 : ¬ (90000 < byteLength (truncatePayload p)) := not_lt.mpr hsize
  simp [h90, hf, ha]

/-- Claim C6: with a configured endpoint, an in-bounds payload and a
persistently failing transport, the forwarder posts exactly 5 times
(attempts 0 through 4); before the k-th retry (k = 0..3 in the code's
attempt numbering) it schedules deferred re-execution after
min(2^k seconds, 15 s), which works out to 1, 2, 4, 8 seconds, strictly
increasing; after the fifth failed attempt it gives up with a log entry and
returns normally instead of raising. -/
theorem sendToN8nWebhook_retry_policy (byteLength : Payload → Nat) (payload : Payload)
    (hsize : byteLength (truncatePayload payload) ≤ 90000) :
    (sendToN8nWebhook true byteLength (fun _ => true) payload 0).2 =
      [.post 0, .postFail 0, .scheduleRetry 1 (min (2 ^ 0 * 1000) 15000),
       .post 1, .postFail 1, .scheduleRetry 2 (min (2 ^ 1 * 1000) 15000),
       .post 2, .postFail 2, .scheduleRetry 3 (min (2 ^ 2 * 1000) 15000),
       .post 3, .postFail 3, .scheduleRetry 4 (min (2 ^ 3 * 1000) 15000),
       .post 4, .postFail 4, .giveUp] ∧
    ((sendToN8nWebhook true byteLength (fun _ => true) payload 0).2.countP
        (fun e => match e with | .post _ => true | _ => false)) = 5 ∧
    [min (2 ^ 0 * 1000) 15000, min (2 ^ 1 * 1000) 15000, min (2 ^ 2 * 1000) 15000,
      min (2 ^ 3 * 1000) 15000] = [1000, 2000, 4000, 8000] ∧
    List.Chain' (fun x y => x < y) [1000, 2000, 4000, 8000] := by
  have hq := truncatePayload_idem payload
  have hs1 : byteLength (truncatePayload (truncatePayload payload)) ≤ 90000 := by
    rw [hq]
    exact hsize
  have h4 : sendToN8nWebhook true byteLength (fun _ => true) (truncatePayload payload) 4
      = (truncatePayload (truncatePayload payload),
         [.post 4, .postFail 4, .giveUp]) :=
    sendToN8nWebhook_step_giveup _ _ _ _ hs1 rfl (by omega)
  have h3 : sendToN8nWebhook true byteLength (fun _ => true) (truncatePayload payload) 3
      = (truncatePayload (truncatePayload payload),
         [.post 3, .postFail 3, .scheduleRetry 4 (min (2 ^ 3 * 1000) 15000),
          .post 4, .postFail 4, .giveUp]) := by
    rw [sendToN8nWebhook_step_fail _ _ _ _ hs1 rfl (by omega), hq, h4]
    simp [hq]
  have h2 : sendToN8nWebhook true byteLength (fun _ => true) (truncatePayload payload) 2
      = (truncatePayload (truncatePayload payload),
         [.post 2, .postFail 2, .scheduleRetry 3 (min (2 ^ 2 * 1000) 15000),
          .post 3, .postFail 3, .scheduleRetry 4 (min (2 ^ 3 * 1000) 15000),
          .post 4, .postFail 4, .giveUp]) := by
    rw [sendToN8nWebhook_step_fail _ _ _ _ hs1 rfl (by omega), hq, h3]
    simp [hq]
  have h1 : sendToN8nWebhook true byteLength (fun _ => true) (truncatePayload payload) 1
      = (truncatePayload (truncatePayload payload),
         [.post 1, .postFail 1, .scheduleRetry 2 (min (2 ^ 1 * 1000) 15000),
          .post 2, .postFail 2, .scheduleRetry 3 (min (2 ^ 2 * 1000) 15000),
          .post 3, .postFail 3, .scheduleRetry 4 (min (2 ^ 3 * 1000) 15000),
          .post 4, .postFail 4, .giveUp]) := by
    rw [sendToN8nWebhook_step_fail _ _ _ _ hs1 rfl (by omega), hq, h2]
    simp [hq]
  have h0 : sendToN8nWebhook true byteLength (fun _ => true) payload 0
      = (truncatePayload (truncatePayload payload),
         [.post 0, .postFail 0, .scheduleRetry 1 (min (2 ^ 0 * 1000) 15000),
          .post 1, .postFail 1, .scheduleRetry 2 (min (2 ^ 1 * 1000) 15000),
          .post 2, .postFail 2, .scheduleRetry 3 (min (2 ^ 2 * 1000) 15000),
          .post 3, .postFail 3, .scheduleRetry 4 (min (2 ^ 3 * 1000) 15000),
          .post 4, .postFail 4, .giveUp]) := by
    rw [sendToN8nWebhook_step_fail _ _ _ _ hsize rfl (by omega), h1]
  exact ⟨by rw [h0], by rw [h0]; rfl, by decide,
    by norm_num [List.chain'_cons]⟩

/-- Claim C6 witness: the sample payload with a constant-zero byte length and
an always-failing transport. -/
theorem sendToN8nWebhook_retry_policy_witness :
    (sendToN8nWebhook true (fun _ => 0) (fun _ => true) samplePayload 0).2 =
      [.post 0, .postFail 0, .scheduleRetry 1 (min (2 ^ 0 * 1000) 15000),
       .post 1, .postFail 1, .scheduleRetry 2 (min (2 ^ 1 * 1000) 15000),
       .post 2, .postFail 2, .scheduleRetry 3 (min (2 ^ 2 * 1000) 15000),
       .post 3, .postFail 3, .scheduleRetry 4 (min (2 ^ 3 * 1000) 15000),
       .post 4, .postFail 4, .giveUp] ∧
    ((sendToN8nWebhook true (fun _ => 0) (fun _ => true) samplePayload 0).2.countP
        (fun e => match e with | .post _ => true | _ => false)) = 5 :=
  ⟨(sendToN8nWebhook_retry_policy (fun _ => 0) samplePayload (Nat.zero_le _)).1,
   (sendToN8nWebhook_retry_policy (fun _ => 0) samplePayload (Nat.zero_le _)).2.1⟩

/-- Claim C7: when the serialized byte size of the truncated payload exceeds
the 90000-byte ceiling, the forwarder only logs the oversize and stops: the
event trace is the single size-skip entry, so no HTTP post happens and no
retry is ever scheduled, at any attempt number and for any transport
behavior. -/
theorem sendToN8nWebhook_oversized_never_sent (byteLength : Payload → Nat)
    (fails : Nat → Bool) (payload : Payload) (attempt : Nat)
    (hsize : 90000 < byteLength (truncatePayload payload)) :
    (sendToN8nWebhook true byteLength fails payload attempt).2
        = [.skipTooLarge (byteLength (truncatePayload payload))] ∧
    (∀ k, WebhookEvent.post k ∉ (sendToN8nWebhook true byteLength fails payload attempt).2) ∧
    (∀ k b, WebhookEvent.scheduleRetry k b
        ∉ (sendToN8nWebhook true byteLength fails payload attempt).2) := by
  have h : sendToN8nWebhook true byteLength fails payload attempt
      = (truncatePayload payload,
         [.skipTooLarge (byteLength (truncatePayload payload))]) := by
    rw [sendToN8nWebhook]
    simp [hsize]
  refine ⟨by rw [h], ?_, ?_⟩
  · intro k
    rw [h]
    simp
  · intro k b
    rw [h]
    simp

/-- Claim C7 witness: the sample payload under a byte-length function that
reports 90001 bytes. -/
theorem sendToN8nWebhook_oversized_never_sent_witness :
    (sendToN8nWebhook true (fun _ => 90001) (fun _ => true) samplePayload 0).2
        = [.skipTooLarge 90001] ∧
    (∀ k, WebhookEvent.post k
        ∉ (sendToN8nWebhook true (fun _ => 90001) (fun _ => true) samplePayload 0).2) :=
  ⟨(sendToN8nWebhook_oversized_never_sent (fun _ => 90001) (fun _ => true)
      samplePayload 0 (by norm_num)).1,
   (sendToN8nWebhook_oversized_never_sent (fun _ => 90001) (fun _ => true)
      samplePayload 0 (by norm_num)).2.1⟩

lemma truncateTextStep_keeps (p : Payload) :
    (truncateTextStep p).messageId = p.messageId ∧
    (truncateTextStep p).chatId = p.chatId ∧
    (truncateTextStep p).chatType = p.chatType ∧
    (truncateTextStep p).chatName = p.chatName ∧
    (truncateTextStep p).senderId = p.senderId ∧
    (truncateTextStep p).senderName = p.senderName ∧
    (truncateTextStep p).senderRole = p.senderRole ∧
    (truncateTextStep p).phoneNumber = p.phoneNumber ∧
    (truncateTextStep p).hasReply = p.hasReply ∧
    (truncateTextStep p).replyTo = p.replyTo ∧
    (truncateTextStep p).timestamp = p.timestamp ∧
    (truncateTextStep p).contactData = p.contactData ∧
    (truncateTextStep p).replyInfo = p.replyInfo := by
  obtain ⟨mid, cid, cty, cna, sid, sna, sro, pho, text, hr, rto, ts, cd, ri⟩ := p
  cases text with
  | none => simp [truncateTextStep]
  | some t => by_cases h : 1000 < t.length <;> simp [truncateTextStep, h]

lemma truncateReplyStep_keeps (p : Payload) :
    (truncateReplyStep p).messageId = p.messageId ∧
    (truncateReplyStep p).chatId = p.chatId ∧
    (truncateReplyStep p).chatType = p.chatType ∧
    (truncateReplyStep p).chatName = p.chatName ∧
    (truncateReplyStep p).senderId = p.senderId ∧
    (truncateReplyStep p).senderName = p.senderName ∧
    (truncateReplyStep p).senderRole = p.senderRole ∧
    (truncateReplyStep p).phoneNumber = p.phoneNumber ∧
    (truncateReplyStep p).hasReply = p.hasReply ∧
    (truncateReplyStep p).replyTo = p.replyTo ∧
    (truncateReplyStep p).timestamp = p.timestamp ∧
    (truncateReplyStep p).contactData = p.contactData ∧
    (truncateReplyStep p).text = p.text ∧
    (truncateReplyStep p).replyInfo.isSome = p.replyInfo.isSome := by
  obtain ⟨mid, cid, cty, cna, sid, sna, sro, pho, text, hr, rto, ts, cd, ri⟩ := p
  cases ri with
  | none => simp [truncateReplyStep]
  | some r =>
      obtain ⟨rtext⟩ := r
      cases rtext with
      | none => simp [truncateReplyStep]
      | some u => by_cases h : 500 < u.length <;> simp [truncateReplyStep, h]

lemma truncateTextStep_text (p : Payload) :
    (truncateTextStep p).text =
      match p.text with
      | some t => if 1000 < t.length then some (truncText 1000 t) else some t
      | none => none := by
  obtain ⟨mid, cid, cty, cna, sid, sna, sro, pho, text, hr, rto, ts, cd, ri⟩ := p
  cases text with
  | none => rfl
  | some t => by_cases h : 1000 < t.length <;> simp [truncateTextStep, h]

lemma truncateReplyStep_replyInfo (p : Payload) :
    (truncateReplyStep p).replyInfo =
      match p.replyInfo with
      | some ri =>
          match ri.text with
          | some u =>
              if 500 < u.length then some ⟨some (truncText 500 u)⟩ else some ri
          | none => some ri
      | none => none := by
  obtain ⟨mid, cid, cty, cna, sid, sna, sro, pho, text, hr, rto, ts, cd, ri⟩ := p
  cases ri with
  | none => rfl
  | some r =>
      obtain ⟨rtext⟩ := r
      cases rtext with
      | none => rfl
      | some u => by_cases h : 500 < u.length <;> simp [truncateReplyStep, h]

/-- Claim C9: the forwarder's pre-send normalization changes only
payload.text and payload.replyInfo.text, and only when they exceed 1000 and
500 characters respectively: every other field of the payload is unchanged,
the presence of the replyInfo block is unchanged, and in-cap texts are left
as they were. The mutation is in place in the source; here the retry
recursion visibly reuses the truncated payload object. -/
theorem truncatePayload_frame (p : Payload) :
    ((truncatePayload p).messageId = p.messageId ∧
     (truncatePayload p).chatId = p.chatId ∧
     (truncatePayload p).chatType = p.chatType ∧
     (truncatePayload p).chatName = p.chatName ∧
     (truncatePayload p).senderId = p.senderId ∧
     (truncatePayload p).senderName = p.senderName ∧
     (truncatePayload p).senderRole = p.senderRole ∧
     (truncatePayload p).phoneNumber = p.phoneNumber ∧
     (truncatePayload p).hasReply = p.hasReply ∧
     (truncatePayload p).replyTo = p.replyTo ∧
     (truncatePayload p).timestamp = p.timestamp ∧
     (truncatePayload p).contactData = p.contactData ∧
     (truncatePayload p).replyInfo.isSome = p.replyInfo.isSome) ∧
    ((truncatePayload p).text = p.text ∨
      ∃ t, p.text = some t ∧ 1000 < t.length ∧
        (truncatePayload p).text = some (truncText 1000 t)) ∧
    (∀ t, p.text = some t → t.length ≤ 1000 → (truncatePayload p).text = p.text) ∧
    (replyText (truncatePayload p) = replyText p ∨
      ∃ t, replyText p = some t ∧ 500 < t.length ∧
        replyText (truncatePayload p) = some (truncText 500 t)) ∧
    (∀ t, replyText p = some t → t.length ≤ 500 →
      replyText (truncatePayload p) = replyText p) := by
  obtain ⟨t1, t2, t3, t4, t5, t6, t7, t8, t9, t10, t11, t12, t13⟩ :=
    truncateTextStep_keeps p
  obtain ⟨r1, r2, r3, r4, r5, r6, r7, r8, r9, r10, r11, r12, r13, r14⟩ :=
    truncateReplyStep_keeps (truncateTextStep p)
  have htext : (truncatePayload p).text = (truncateTextStep p).text := r13
  have hreplyinfo : (truncatePayload p).replyInfo
      = (truncateReplyStep (truncateTextStep p)).replyInfo := rfl
  refine ⟨⟨?_, ?_, ?_, ?_, ?_, ?_, ?_, ?_, ?_, ?_, ?_, ?_, ?_⟩, ?_, ?_, ?_, ?_⟩
  · rw [show (truncatePayload p).messageId
        = (truncateReplyStep (truncateTextStep p)).messageId from rfl, r1, t1]
  · rw [show (truncatePayload p).chatId
        = (truncateReplyStep (truncateTextStep p)).chatId from rfl, r2, t2]
  · rw [show (truncatePayload p).chatType
        = (truncateReplyStep (truncateTextStep p)).chatType from rfl, r3, t3]
  · rw [show (truncatePayload p).chatName
        = (truncateReplyStep (truncateTextStep p)).chatName from rfl, r4, t4]
  · rw [show (truncatePayload p).senderId
        = (truncateReplyStep (truncateTextStep p)).senderId from rfl, r5, t5]
  · rw [show (truncatePayload p).senderName
        = (truncateReplyStep (truncateTextStep p)).senderName from rfl, r6, t6]
  · rw [show (truncatePayload p).senderRole
        = (truncateReplyStep (truncateTextStep p)).senderRole from rfl, r7, t7]
  · rw [show (truncatePayload p).phoneNumber
        = (truncateReplyStep (truncateTextStep p)).phoneNumber from rfl, r8, t8]
  · rw [show (truncatePayload p).hasReply
        = (truncateReplyStep (truncateTextStep p)).hasReply from rfl, r9, t9]
  · rw [show (truncatePayload p).replyTo
        = (truncateReplyStep (truncateTextStep p)).replyTo from rfl, r10, t10]
  · rw [show (truncatePayload p).timestamp
        = (truncateReplyStep (truncateTextStep p)).timestamp from rfl, r11, t11]
  · rw [show (truncatePayload p).contactData
        = (truncateReplyStep (truncateTextStep p)).contactData from rfl, r12, t12]
  · rw [show (truncatePayload p).replyInfo.isSome
        = (truncateReplyStep (truncateTextStep p)).replyInfo.isSome from rfl, r14, t13]
  · rcases hpt : p.text with _ | t
    · left
      rw [htext, truncateTextStep_text p, hpt]
    · by_cases hlen : 1000 < t.length
      · right
        refine ⟨t, by simp [hpt], hlen, ?_⟩
        rw [htext, truncateTextStep_text p, hpt]
        simp [hlen]
      · left
        rw [htext, truncateTextStep_text p, hpt]
        simp [hlen]
  · intro t hpt hle
    rw [htext, truncateTextStep_text p, hpt]
    simp [Nat.not_lt.mpr hle]
  · have hr : replyText (truncatePayload p)
        = (truncateReplyStep (truncateTextStep p)).replyInfo.bind (fun ri => ri.text) :=
      rfl
    rcases hpr : p.replyInfo with _ | ri
    · left
      rw [hr, truncateReplyStep_replyInfo (truncateTextStep p), t13, hpr]
      simp [replyText, hpr]
    · rcases hrt : ri.text with _ | u
      · left
        rw [hr, truncateReplyStep_replyInfo (truncateTextStep p), t13, hpr]
        simp [replyText, hpr, hrt]
      · by_cases hlen : 500 < u.length
        · right
          refine ⟨u, ?_, hlen, ?_⟩
          · simp [replyText, hpr, hrt]
          · rw [hr, truncateReplyStep_replyInfo (truncateTextStep p), t13, hpr]
            simp [hrt, hlen]
        · left
          rw [hr, truncateReplyStep_replyInfo (truncateTextStep p), t13, hpr]
          simp [replyText, hpr, hrt, hlen]
  · intro u hru hle
    have hr : replyText (truncatePayload p)
        = (truncateReplyStep (truncateTextStep p)).replyInfo.bind (fun ri => ri.text) :=
      rfl
    rcases hpr : p.replyInfo with _ | ri
    · simp [replyText, hpr] at hru
    · have hrt : ri.text = some u := by
        simpa [replyText, hpr] using hru
      rw [hr, truncateReplyStep_replyInfo (truncateTextStep p), t13, hpr]
      simp [replyText, hpr, hrt, Nat.not_lt.mpr hle]

/-- Claim C9 witness: the sample payload, whose text and reply text are both
within the caps, passes the in-cap clauses of the frame theorem at concrete
values. -/
theorem truncatePayload_frame_witness :
    (truncatePayload samplePayload).chatId = samplePayload.chatId ∧
    (truncatePayload samplePayload).text = samplePayload.text ∧
    replyText (truncatePayload samplePayload) = replyText samplePayload :=
  ⟨(truncatePayload_frame samplePayload).1.2.1,
   (truncatePayload_frame samplePayload).2.2.1 "hello" rfl (by decide),
   (truncatePayload_frame samplePayload).2.2.2.2 "quoted" rfl (by decide)⟩

end WhatsAppBot
